import Mathlib

/-!
Verification of the Scriptrix academic writing assistant.

Shallow embedding of the data model and operations of the repository
(src/App.tsx, src/services/geminiService.ts, src/components/EditorPanel.tsx,
src/unnamed/part_001 and src/unnamed/part_002) in Lean 4.

Modelling conventions:
- The external generative-language provider is an explicit oracle parameter.
  `ProviderOutcome` models one call: `ok v` is a resolved response, `err`
  covers a thrown/rejected call, an absent response body, and (for the
  analysis call) a JSON parse failure, all of which land in the same
  `catch` block of the source.
- Effectful operations return, besides their value, the list of request
  payloads sent to the provider, so that "the provider is not invoked"
  is the statement that this list is empty.
- Browser `alert(...)` calls are modelled as an append-only `alerts` log in
  the application state.
- JavaScript string operations are modelled over `List Char`
  (`includes`, first-occurrence `replace`, global single-character
  `replace`, `trim`, `slice`, `substring`).
-/

/-- Outcome of one call to the external AI provider. -/
inductive ProviderOutcome (α : Type) where
  | ok (val : α)
  | err
deriving DecidableEq, Repr

/-- ChatMessage record, from src/unnamed/part_002 (types.ts): id, role
("user" or "model"), content, timestamp. -/
structure ChatMessage where
  id : String
  role : String
  content : String
  timestamp : Nat
deriving DecidableEq, Repr

/-- Suggestion record, from src/unnamed/part_002 (types.ts). The
`originalText` and `replacement` fields are optional in the source
(`originalText?: string`); `none` models an absent field. -/
structure Suggestion where
  id : String
  type : String
  text : String
  originalText : Option String
  replacement : Option String
deriving DecidableEq, Repr

/-- Document insights block of an AnalysisResult, from src/unnamed/part_002. -/
structure DocumentInsights where
  estimatedReadingTime : String
  vocabularyDiversityScore : Int
  complexSentenceCount : Int
  transitionWordsCount : Int
deriving DecidableEq, Repr

/-- AnalysisResult record, from src/unnamed/part_002 (types.ts). -/
structure AnalysisResult where
  clarityScore : Int
  academicToneScore : Int
  grammarRating : String
  readabilityLevel : String
  suggestions : List Suggestion
  documentInsights : DocumentInsights
deriving DecidableEq, Repr

/-- Payload of one chat call: the prior turns, the new message, and the
truncated document snapshot embedded in the system instruction
(src/services/geminiService.ts lines 101-116). -/
structure ChatRequest where
  history : List ChatMessage
  message : String
  contextSnapshot : String
deriving DecidableEq, Repr

/-- Top-level application state of src/App.tsx that the claims are about:
the Document markup string `text`, the remount counter `docVersion`, the
latest analysis, the chat history, and the log of `alert(...)` messages
surfaced to the user. -/
structure AppState where
  text : String
  docVersion : Nat
  analysis : Option AnalysisResult
  chatHistory : List ChatMessage
  alerts : List String
deriving DecidableEq, Repr

/-- Mode of the AI action popup (src/components/EditorPanel.tsx,
`AiPopupState.mode`). -/
inductive PopupMode where
  | prompt
  | processing
  | result
deriving DecidableEq, Repr

/-- AiPopupState of src/components/EditorPanel.tsx lines 26-33. The DOM
`Range` is opaque to the state machine; only its presence matters, so it is
modelled as `Option Unit`. -/
structure AiPopupState where
  isOpen : Bool
  mode : PopupMode
  actionId : String
  prompt : String
  result : String
  range : Option Unit
deriving DecidableEq, Repr

/-- A browser text selection as consumed by `handleQuickAction`
(src/components/EditorPanel.tsx lines 116-124): its `rangeCount` and the
string `selection.toString()` returns. `none` models a null selection. -/
structure SelectionModel where
  rangeCount : Nat
  content : String
deriving DecidableEq, Repr

/-- Whitespace set of JavaScript `String.prototype.trim`
(ASCII whitespace, NBSP, BOM). -/
def jsWhitespace (c : Char) : Bool :=
  c = ' ' || c = '\t' || c = '\n' || c = '\r' ||
  c = '\u000B' || c = '\u000C' || c = ' ' || c = '﻿'

/-- JavaScript `s.trim()`: drop leading and trailing whitespace. -/
def jsTrim (s : String) : String :=
  ⟨((s.data.dropWhile jsWhitespace).reverse.dropWhile jsWhitespace).reverse⟩

/-- JavaScript `s.substring(0, n)`. -/
def strTake (s : String) (n : Nat) : String := ⟨s.data.take n⟩

/-- JavaScript `s.slice(-n)`: the trailing window of at most `n` characters. -/
def strTakeRight (s : String) (n : Nat) : String := ⟨(s.data.reverse.take n).reverse⟩

/-- Does `pat` occur as a contiguous sublist of the second argument?
Models JavaScript `String.prototype.includes`. -/
def hasSubList (pat : List Char) : List Char → Bool
  | [] => pat.isEmpty
  | c :: rest => pat.isPrefixOf (c :: rest) || hasSubList pat rest

/-- JavaScript `s.includes(sub)`. -/
def strIncludes (s sub : String) : Bool := hasSubList sub.data s.data

/-- Replace the first occurrence of `pat` (leftmost match) by `repl`,
leaving the list unchanged when `pat` does not occur. Models JavaScript
`String.prototype.replace` with a plain string pattern. -/
def replaceFirstList (pat repl : List Char) : List Char → List Char
  | [] => if pat.isEmpty then repl else []
  | c :: rest =>
      if pat.isPrefixOf (c :: rest) then repl ++ (c :: rest).drop pat.length
      else c :: replaceFirstList pat repl rest

/-- JavaScript `s.replace(pat, repl)` (first occurrence only). -/
def strReplaceFirst (s pat repl : String) : String :=
  ⟨replaceFirstList pat.data repl.data s.data⟩

/-- JavaScript falsiness of an optional string: absent or empty.
Models `!s.originalText` on an optional string field. -/
def falsyOptStr : Option String → Bool
  | none => true
  | some s => s == ""

/-- Replace every occurrence of the single character `c` by `repl`.
Models JavaScript `s.replace(/c/g, repl)` for a one-character pattern. -/
def replaceCharList (c : Char) (repl : List Char) : List Char → List Char
  | [] => []
  | x :: xs => (if x = c then repl else [x]) ++ replaceCharList c repl xs

/-- Length of `dropWhile` never exceeds the input length. -/
theorem dropWhileLengthLe (p : Char → Bool) (l : List Char) :
    (List.dropWhile p l).length ≤ l.length := by
  induction l with
  | nil => simp [List.dropWhile]
  | cons c rest ih =>
      by_cases h : p c
      · simpa [List.dropWhile, h] using Nat.le_succ_of_le ih
      · simp [List.dropWhile, h]

/-- Trimming never lengthens a string. -/
theorem jsTrimLengthLe (s : String) : (jsTrim s).length ≤ s.length := by
  show (((s.data.dropWhile jsWhitespace).reverse.dropWhile jsWhitespace).reverse).length
      ≤ s.data.length
  rw [List.length_reverse]
  calc ((s.data.dropWhile jsWhitespace).reverse.dropWhile jsWhitespace).length
      ≤ (s.data.dropWhile jsWhitespace).reverse.length :=
        dropWhileLengthLe jsWhitespace _
    _ = (s.data.dropWhile jsWhitespace).length := List.length_reverse _
    _ ≤ s.data.length := dropWhileLengthLe jsWhitespace _

/-- The fixed all-zero AnalysisResult returned for inputs under 10
characters (src/services/geminiService.ts lines 15-29). -/
def zeroAnalysisResult : AnalysisResult :=
  { clarityScore := 0
    academicToneScore := 0
    grammarRating := "Needs Work"
    readabilityLevel := "N/A"
    suggestions := []
    documentInsights :=
      { estimatedReadingTime := "0 min"
        vocabularyDiversityScore := 0
        complexSentenceCount := 0
        transitionWordsCount := 0 } }

/-- The synthetic suggestion produced when analysis fails
(src/services/geminiService.ts line 88): empty `originalText` and
`replacement`. -/
def unavailableSuggestion : Suggestion :=
  { id := "err"
    type := "improvement"
    text := "Analysis unavailable. Please try again."
    originalText := some ""
    replacement := some "" }

/-- The fixed degraded AnalysisResult returned when the analysis call
fails (src/services/geminiService.ts lines 83-95). -/
def degradedAnalysisResult : AnalysisResult :=
  { clarityScore := 0
    academicToneScore := 0
    grammarRating := "Needs Work"
    readabilityLevel := "Error"
    suggestions := [unavailableSuggestion]
    documentInsights :=
      { estimatedReadingTime := "-"
        vocabularyDiversityScore := 0
        complexSentenceCount := 0
        transitionWordsCount := 0 } }

/-- Request payload of the analysis call (src/services/geminiService.ts
lines 32-39): the fixed instruction with the text spliced in. -/
def analysisPrompt (text : String) : String :=
  "Analyze the following academic text. Provide a JSON response with scores and specific suggestions for improvement.\n\nText to analyze:\n\"\"\"\n"
    ++ text ++ "\n\"\"\""

/-- analyzeText (src/services/geminiService.ts lines 14-97). Returns the
result together with the list of request payloads sent to the provider.
`provider _ = ok r` models a response whose body parses to `r`;
`provider _ = err` models a thrown call, an empty response body, or a
parse failure (all reach the same catch block). -/
def analyzeText (text : String) (provider : String → ProviderOutcome AnalysisResult) :
    AnalysisResult × List String :=
  if text = "" ∨ (jsTrim text).length < 10 then (zeroAnalysisResult, [])
  else
    let req := analysisPrompt text
    match provider req with
    | ProviderOutcome.ok r => (r, [req])
    | ProviderOutcome.err => (degradedAnalysisResult, [req])

/-- getChatResponse (src/services/geminiService.ts lines 99-122). The
request carries the prior history, the new message, and the first 2000
characters of the document context embedded in the system instruction.
`ok (some s)` is a response with text `s`, `ok none` a response without
text; the empty and absent texts both fall back to the fixed apology. -/
def getChatResponse (history : List ChatMessage) (newMessage currentContext : String)
    (provider : ChatRequest → ProviderOutcome (Option String)) : String × List ChatRequest :=
  let req : ChatRequest := ⟨history, newMessage, strTake currentContext 2000⟩
  match provider req with
  | ProviderOutcome.ok t =>
      (match t with
       | some s => if s = "" then "I apologize, I couldn\x27t generate a response." else s
       | none => "I apologize, I couldn\x27t generate a response.", [req])
  | ProviderOutcome.err =>
      ("Sorry, I\x27m having trouble connecting to the AI service right now.", [req])

/-- Request payload of the autocomplete call (src/services/geminiService.ts
lines 131-135): the fixed instruction with the trailing context spliced in. -/
def autocompletePrompt (context : String) : String :=
  "Complete the following academic sentence naturally. Provide ONLY the completion text, starting with the next likely word. Do not repeat the input. Keep it short (max 10 words).\n\nInput text: \""
    ++ context ++ "\""

/-- getAutocompleteSuggestion (src/services/geminiService.ts lines 124-151):
empty result for inputs under 50 characters; otherwise only the trailing
200-character window is sent as context. The response text is trimmed and
an absent or empty response degrades to the empty string. -/
def getAutocompleteSuggestion (textBeforeCursor : String)
    (provider : String → ProviderOutcome (Option String)) : String × List String :=
  if textBeforeCursor = "" ∨ textBeforeCursor.length < 50 then ("", [])
  else
    let req := autocompletePrompt (strTakeRight textBeforeCursor 200)
    match provider req with
    | ProviderOutcome.ok t => (jsTrim (t.getD ""), [req])
    | ProviderOutcome.err => ("", [req])

/-- Instruction template selected by performQuickAction
(src/services/geminiService.ts lines 155-177). A missing or empty custom
prompt falls back to the default instruction. -/
def quickActionInstruction (action : String) (customPrompt : Option String) : String :=
  if action = "Paraphrase Selection" then
    "Rewrite the following text to be more academic and professional, maintaining the original meaning:"
  else if action = "Expand Ideas" then
    "Expand on the following text with 2-3 explanatory sentences to deepen the analysis:"
  else if action = "Summarize" then
    "Summarize the following text concisely, retaining key academic points:"
  else if action = "Citation Helper" then
    "Identify where citations are likely needed in the following text and suggest the type of source (e.g., \x27Requires empirical study citation\x27):"
  else if action = "Check Plagiarism Risk" then
    "Analyze the following text for potential plagiarism risks (e.g., too generic, common phrasing without attribution) and suggest how to make it more original:"
  else if action = "Custom" then
    match customPrompt with
    | some p => if p = "" then "Improve the following text:" else p
    | none => "Improve the following text:"
  else "Improve the following text:"

/-- performQuickAction (src/services/geminiService.ts lines 153-189):
concatenates the selected instruction with the quoted selection, returns
the provider text, a fixed fallback for an absent or empty response, and a
fixed error string when the call fails. -/
def performQuickAction (action selection : String) (customPrompt : Option String)
    (provider : String → ProviderOutcome (Option String)) : String × List String :=
  let contents := quickActionInstruction action customPrompt ++ "\n\n\"" ++ selection ++ "\""
  match provider contents with
  | ProviderOutcome.ok t =>
      (match t with
       | some s => if s = "" then "Could not process selection." else s
       | none => "Could not process selection.", [contents])
  | ProviderOutcome.err => ("Error processing request.", [contents])

/-- Modelled from the spec: stripHtml (src/App.tsx lines 26-30) delegates
to the browser DOM (`innerHTML` assignment followed by `textContent`),
which is not part of this repository. The spec describes it as stripping
all markup; the DOM parse drops tags (a `<`...`>` run contributes no text)
and decodes character entities. This model removes tags and decodes
exactly the three entities the file importer emits (`&amp;`, `&lt;`,
`&gt;`); literal text, including newline characters, is kept verbatim.
The Bool argument is the in-tag flag. -/
def stripHtmlAux : Bool → List Char → List Char
  | _, [] => []
  | true, '>' :: rest => stripHtmlAux false rest
  | true, _ :: rest => stripHtmlAux true rest
  | false, '<' :: rest => stripHtmlAux true rest
  | false, '&' :: 'a' :: 'm' :: 'p' :: ';' :: rest => '&' :: stripHtmlAux false rest
  | false, '&' :: 'l' :: 't' :: ';' :: rest => '<' :: stripHtmlAux false rest
  | false, '&' :: 'g' :: 't' :: ';' :: rest => '>' :: stripHtmlAux false rest
  | false, c :: rest => c :: stripHtmlAux false rest

/-- stripHtml (src/App.tsx lines 26-30): plain text of a markup string. -/
def stripHtml (html : String) : String := ⟨stripHtmlAux false html.data⟩

/-- Entity for `&` produced by the file importer. -/
def ampEnt : List Char := ['&', 'a', 'm', 'p', ';']

/-- Entity for `<` produced by the file importer. -/
def ltEnt : List Char := ['&', 'l', 't', ';']

/-- Entity for `>` produced by the file importer. -/
def gtEnt : List Char := ['&', 'g', 't', ';']

/-- The `<br>` tag the file importer substitutes for a newline. -/
def brEnt : List Char := ['<', 'b', 'r', '>']

/-- The HTML-escaping pipeline of handleFileUpload (src/App.tsx lines
115-119): four sequential global replaces, `&`, `<`, `>`, then newline. -/
def uploadFormat (content : String) : String :=
  ⟨replaceCharList '\n' brEnt
    (replaceCharList '>' gtEnt
      (replaceCharList '<' ltEnt
        (replaceCharList '&' ampEnt content.data)))⟩

/-- handleFileUpload (src/App.tsx lines 106-126) applied to the file
content already read: empty content is ignored, otherwise the escaped
content replaces the Document and the version is bumped. -/
def handleFileUpload (st : AppState) (content : String) : AppState :=
  if content = "" then st
  else { st with text := uploadFormat content, docVersion := st.docVersion + 1 }

/-- exportAsTxt (src/App.tsx lines 132-142): the downloaded file holds the
markup stripped to plain text. -/
def exportAsTxt (st : AppState) : String := stripHtml st.text

/-- A string with every newline character removed. -/
def removeNewlines (s : String) : String := ⟨s.data.filter (fun c => c != '\n')⟩

/-- handleApplySuggestion (src/App.tsx lines 306-321): a falsy
`originalText` or `replacement` is a silent no-op; an exact substring
match replaces the first occurrence, bumps the version and drops the
suggestion from the analysis; otherwise an alert is surfaced. -/
def handleApplySuggestion (st : AppState) (s : Suggestion) : AppState :=
  if falsyOptStr s.originalText || falsyOptStr s.replacement then st
  else if strIncludes st.text (s.originalText.getD "") then
    { st with
      text := strReplaceFirst st.text (s.originalText.getD "") (s.replacement.getD "")
      docVersion := st.docVersion + 1
      analysis := st.analysis.map (fun a =>
        { a with suggestions := a.suggestions.filter (fun sg => sg != s) }) }
  else
    { st with alerts := st.alerts ++ ["Could not find exact text match. It may have been edited."] }

/-- handleChatSend (src/App.tsx lines 83-94): appends the user message,
calls the chat gateway with the history as captured before the append
(the source closes over the pre-append `chatHistory`), then appends the
model message. `now1` is the clock at the first `Date.now()` call, `now2`
at the later ones. -/
def handleChatSend (st : AppState) (msg : String) (now1 now2 : Nat)
    (provider : ChatRequest → ProviderOutcome (Option String)) : AppState :=
  let userMsg : ChatMessage := ⟨toString now1, "user", msg, now1⟩
  let response := (getChatResponse st.chatHistory msg (stripHtml st.text) provider).1
  let aiMsg : ChatMessage := ⟨toString (now2 + 1), "model", response, now2⟩
  { st with chatHistory := st.chatHistory ++ [userMsg, aiMsg] }

/-- handleNewDocument (src/App.tsx lines 96-104): behind a confirmation
dialog; when confirmed, clears the Document, the analysis and the chat
history and bumps the version. -/
def handleNewDocument (st : AppState) (confirmed : Bool) : AppState :=
  if confirmed then
    { st with text := "", analysis := none, chatHistory := [], docVersion := st.docVersion + 1 }
  else st

/-- The Document-to-view synchronization effect of the Editor Surface
(src/components/EditorPanel.tsx lines 51-62, identical in
src/unnamed/part_001 lines 171-182): given the incoming Document value and
the current view content, returns the view content after the effect. A
non-empty Document overwrites the view only when the view is empty or the
`<br>` placeholder; an empty Document always clears the view. -/
def editorSyncEffect (text view : String) : String :=
  let v1 := if (!(text = "")) && (view != text) && (view == "" || view == "<br>")
            then text else view
  if text = "" then "" else v1

/-- runAiAction (src/components/EditorPanel.tsx lines 147-154): performs
the quick action and moves the popup to the `result` mode with the
returned text; `performQuickAction` resolves with a fixed error string on
provider failure, and the surrounding catch would likewise set `result`
with the same fixed message. -/
def runAiAction (popup : AiPopupState) (actionId selectionText customPrompt : String)
    (rng : Option Unit) (provider : String → ProviderOutcome (Option String)) : AiPopupState :=
  let res := (performQuickAction actionId selectionText (some customPrompt) provider).1
  { popup with mode := PopupMode.result, result := res, range := rng }

/-- Is the selection missing, rangeless, or empty after trimming?
The guard of handleQuickAction (src/components/EditorPanel.tsx line 118). -/
def emptySel : Option SelectionModel → Bool
  | none => true
  | some sel => sel.rangeCount == 0 || (jsTrim sel.content).length == 0

/-- handleQuickAction (src/components/EditorPanel.tsx lines 116-145),
composed with the completion of the asynchronous action it launches.
Returns the popup state, the alerts surfaced, and the list of provider
request payloads. An empty selection alerts and leaves the popup closed;
the Custom action opens the popup in `prompt` mode without a provider
call; any other action opens it in `processing` mode and runs the action
to its `result` state. -/
def handleQuickAction (popup : AiPopupState) (actionId : String)
    (selection : Option SelectionModel)
    (provider : String → ProviderOutcome (Option String)) :
    AiPopupState × List String × List String :=
  match selection with
  | none => (popup, ["Please select some text first."], [])
  | some sel =>
      if sel.rangeCount == 0 || (jsTrim sel.content).length == 0 then
        (popup, ["Please select some text first."], [])
      else if actionId = "Custom" then
        ({ isOpen := true, mode := PopupMode.prompt, actionId := actionId,
           prompt := "", result := "", range := some () }, [], [])
      else
        let opened : AiPopupState :=
          { isOpen := true, mode := PopupMode.processing, actionId := actionId,
            prompt := "", result := "", range := some () }
        (runAiAction opened actionId sel.content "" (some ()) provider, [],
         (performQuickAction actionId sel.content (some "") provider).2)

/-- Global single-character replacement distributes over append. -/
theorem replaceCharListAppend (c : Char) (repl a b : List Char) :
    replaceCharList c repl (a ++ b) =
      replaceCharList c repl a ++ replaceCharList c repl b := by
  induction a with
  | nil => rfl
  | cons x xs ih => simp [replaceCharList, ih]

/-- What the file importer substitutes for one character. -/
def escChar (x : Char) : List Char :=
  if x = '&' then ampEnt
  else if x = '<' then ltEnt
  else if x = '>' then gtEnt
  else if x = '\n' then brEnt
  else [x]

/-- The four sequential global replaces of handleFileUpload, on lists. -/
def escapeList (l : List Char) : List Char :=
  replaceCharList '\n' brEnt
    (replaceCharList '>' gtEnt
      (replaceCharList '<' ltEnt
        (replaceCharList '&' ampEnt l)))

/-- The sequential replaces act character by character: no replacement
output contains a character replaced by a later pass. -/
theorem escapeListCons (x : Char) (xs : List Char) :
    escapeList (x :: xs) = escChar x ++ escapeList xs := by
  by_cases h1 : x = '&'
  · subst h1
    simp [escapeList, escChar, replaceCharList, replaceCharListAppend,
      ampEnt, ltEnt, gtEnt, brEnt]
  · by_cases h2 : x = '<'
    · subst h2
      simp [escapeList, escChar, replaceCharList, replaceCharListAppend,
        ampEnt, ltEnt, gtEnt, brEnt]
    · by_cases h3 : x = '>'
      · subst h3
        simp [escapeList, escChar, replaceCharList, replaceCharListAppend,
          ampEnt, ltEnt, gtEnt, brEnt]
      · by_cases h4 : x = '\n'
        · subst h4
          simp [escapeList, escChar, replaceCharList, replaceCharListAppend,
            ampEnt, ltEnt, gtEnt, brEnt]
        · simp [escapeList, escChar, replaceCharList, replaceCharListAppend,
            h1, h2, h3, h4]

/-- Stripping the escape of one character: escaped reserved characters are
decoded back, a newline (escaped to a tag) is dropped, any other character
is kept. -/
theorem stripEscChar (x : Char) (rest : List Char) :
    stripHtmlAux false (escChar x ++ rest) =
      (if x = '\n' then [] else [x]) ++ stripHtmlAux false rest := by
  by_cases h1 : x = '&'
  · subst h1; rfl
  · by_cases h2 : x = '<'
    · subst h2; rfl
    · by_cases h3 : x = '>'
      · subst h3; rfl
      · by_cases h4 : x = '\n'
        · subst h4; rfl
        · have hesc : escChar x = [x] := by simp [escChar, h1, h2, h3, h4]
          rw [hesc]
          simp only [List.cons_append, List.nil_append]
          rw [stripHtmlAux.eq_def]
          split <;> simp_all

/-- Stripping an escaped string recovers it with newlines removed. -/
theorem stripEscapeList (p : List Char) :
    stripHtmlAux false (escapeList p) = p.filter (fun c => c != '\n') := by
  induction p with
  | nil => rfl
  | cons x xs ih =>
      rw [escapeListCons, stripEscChar, ih]
      by_cases h : x = '\n'
      · subst h; simp [List.filter_cons]
      · simp [List.filter_cons, h]

/-- Round trip through export and import, on strings: stripping the upload
escaping of any plain text yields the text with newlines removed. -/
theorem stripHtmlUploadFormat (p : String) :
    stripHtml (uploadFormat p) = removeNewlines p := by
  show (⟨stripHtmlAux false (escapeList p.data)⟩ : String) = _
  rw [stripEscapeList]
  rfl

/-- Claim C1: every AI Gateway operation is total (in this embedding each
returns a plain value for every provider outcome, never an exception
value), and on provider failure each returns its fixed degraded value:
analyzeText the degraded result whose only suggestion is the synthetic
unavailable one, getChatResponse the fixed apology string,
getAutocompleteSuggestion the empty string, and performQuickAction the
fixed error string. The hypothesis restricts the analyzeText conjunct to
inputs that reach the provider at all (short inputs return the zero result
without a call, see C6). -/
theorem c1_gateway_degraded (text t2 msg ctx action sel : String)
    (history : List ChatMessage) (custom : Option String)
    (h : ¬ (text = "" ∨ (jsTrim text).length < 10)) :
    (analyzeText text (fun _ => ProviderOutcome.err)).1 = degradedAnalysisResult ∧
    degradedAnalysisResult.suggestions = [unavailableSuggestion] ∧
    (getChatResponse history msg ctx (fun _ => ProviderOutcome.err)).1 =
      "Sorry, I\x27m having trouble connecting to the AI service right now." ∧
    (getAutocompleteSuggestion t2 (fun _ => ProviderOutcome.err)).1 = "" ∧
    (performQuickAction action sel custom (fun _ => ProviderOutcome.err)).1 =
      "Error processing request." := by
  refine ⟨?_, rfl, rfl, ?_, rfl⟩
  · unfold analyzeText
    rw [if_neg h]
  · unfold getAutocompleteSuggestion
    by_cases h2 : t2 = "" ∨ t2.length < 50
    · rw [if_pos h2]
    · rw [if_neg h2]

/-- Witness for C1 at concrete inputs. -/
theorem c1_gateway_degraded_witness :
    (analyzeText "a sufficiently long input" (fun _ => ProviderOutcome.err)).1 =
      degradedAnalysisResult ∧
    degradedAnalysisResult.suggestions = [unavailableSuggestion] ∧
    (getChatResponse [] "hi" "doc" (fun _ => ProviderOutcome.err)).1 =
      "Sorry, I\x27m having trouble connecting to the AI service right now." ∧
    (getAutocompleteSuggestion "ctx" (fun _ => ProviderOutcome.err)).1 = "" ∧
    (performQuickAction "Summarize" "sel" none (fun _ => ProviderOutcome.err)).1 =
      "Error processing request." :=
  c1_gateway_degraded "a sufficiently long input" "ctx" "hi" "doc" "Summarize" "sel"
    [] none (by decide)

/-- Claim C6: for every input of length under 10 characters, analyzeText
returns the fixed zero-score AnalysisResult and sends no request to the
provider. -/
theorem c6_short_input_zero (text : String)
    (provider : String → ProviderOutcome AnalysisResult)
    (h : text.length < 10) :
    analyzeText text provider = (zeroAnalysisResult, []) := by
  unfold analyzeText
  rw [if_pos (Or.inr (lt_of_le_of_lt (jsTrimLengthLe text) h))]

/-- Witness for C6 at a concrete short input. -/
theorem c6_short_input_zero_witness :
    analyzeText "short" (fun _ => ProviderOutcome.err) = (zeroAnalysisResult, []) :=
  c6_short_input_zero "short" (fun _ => ProviderOutcome.err) (by decide)

/-- Claim C7: for every input of length under 50 characters,
getAutocompleteSuggestion returns the empty string and sends no request to
the provider; for every longer input it sends exactly one request, whose
context is the trailing 200-character window of the input. -/
theorem c7_autocomplete_window (t : String)
    (provider : String → ProviderOutcome (Option String)) :
    (t.length < 50 → getAutocompleteSuggestion t provider = ("", [])) ∧
    (50 ≤ t.length →
      (getAutocompleteSuggestion t provider).2 =
        [autocompletePrompt (strTakeRight t 200)]) := by
  constructor
  · intro h
    unfold getAutocompleteSuggestion
    rw [if_pos (Or.inr h)]
  · intro h
    have hne : ¬ (t = "" ∨ t.length < 50) := by
      rintro (h1 | h2)
      · subst h1; exact absurd h (by decide)
      · omega
    unfold getAutocompleteSuggestion
    rw [if_neg hne]
    rcases hp : provider (autocompletePrompt (strTakeRight t 200)) with v | _ <;>
      simp [hp]

/-- Witness for C7 at concrete short and long inputs. -/
theorem c7_autocomplete_window_witness :
    getAutocompleteSuggestion "abc" (fun _ => ProviderOutcome.err) = ("", []) ∧
    (getAutocompleteSuggestion
        "this preceding context is certainly longer than fifty characters"
        (fun _ => ProviderOutcome.err)).2 =
      [autocompletePrompt (strTakeRight
        "this preceding context is certainly longer than fifty characters" 200)] :=
  ⟨(c7_autocomplete_window "abc" (fun _ => ProviderOutcome.err)).1 (by decide),
   (c7_autocomplete_window
      "this preceding context is certainly longer than fifty characters"
      (fun _ => ProviderOutcome.err)).2 (by decide)⟩

/-- Claim C2 counterexample: a suggestion whose originalText is the
non-empty string "x" (not a substring of the empty document) but whose
replacement is absent is a silent no-op — the state, and in particular the
alerts log, is returned unchanged, so no user-visible validation failure
is signalled, contradicting the claim at this input. -/
theorem c2_substring_counterexample :
    ("x" : String) ≠ "" ∧
    strIncludes "" "x" = false ∧
    handleApplySuggestion ⟨"", 0, none, [], []⟩
        ⟨"s1", "improvement", "advice", some "x", none⟩ =
      ⟨"", 0, none, [], []⟩ := by
  decide

/-- Claim C2 as amended: for every suggestion whose originalText is a
non-empty string that is not a substring of the current document AND whose
replacement is present and non-empty, applying the suggestion leaves the
document unchanged and surfaces the validation alert. -/
theorem c2_substring_amended (st : AppState) (s : Suggestion) (o r : String)
    (h1 : s.originalText = some o) (h2 : o ≠ "")
    (h3 : s.replacement = some r) (h4 : r ≠ "")
    (h5 : strIncludes st.text o = false) :
    (handleApplySuggestion st s).text = st.text ∧
    (handleApplySuggestion st s).alerts =
      st.alerts ++ ["Could not find exact text match. It may have been edited."] := by
  have ho : falsyOptStr s.originalText = false := by
    rw [h1]
    exact beq_eq_false_iff_ne.mpr h2
  have hr : falsyOptStr s.replacement = false := by
    rw [h3]
    exact beq_eq_false_iff_ne.mpr h4
  unfold handleApplySuggestion
  rw [ho, hr, h1]
  simp [h5]

/-- Witness for the amended C2 at concrete inputs. -/
theorem c2_substring_amended_witness :
    (handleApplySuggestion ⟨"hello", 0, none, [], []⟩
        ⟨"s1", "tone", "advice", some "xyz", some "abc"⟩).text = "hello" ∧
    (handleApplySuggestion ⟨"hello", 0, none, [], []⟩
        ⟨"s1", "tone", "advice", some "xyz", some "abc"⟩).alerts =
      [] ++ ["Could not find exact text match. It may have been edited."] :=
  c2_substring_amended ⟨"hello", 0, none, [], []⟩
    ⟨"s1", "tone", "advice", some "xyz", some "abc"⟩ "xyz" "abc"
    rfl (by decide) rfl (by decide) (by decide)

/-- Claim C10: applying a suggestion whose originalText or replacement is
missing or empty is a silent no-op — the whole state (document, suggestion
list, alerts) is unchanged — and in particular the synthetic unavailable
suggestion produced on analysis failure can never be applied and never
triggers the validation alert. -/
theorem c10_falsy_suggestion_noop (st : AppState) (s : Suggestion)
    (h : falsyOptStr s.originalText = true ∨ falsyOptStr s.replacement = true) :
    handleApplySuggestion st s = st ∧
    handleApplySuggestion st unavailableSuggestion = st := by
  constructor
  · unfold handleApplySuggestion
    rcases h with h | h <;> simp [h]
  · rfl

/-- Witness for C10 at a concrete state and the synthetic suggestion. -/
theorem c10_falsy_suggestion_noop_witness :
    handleApplySuggestion ⟨"doc", 1, none, [], []⟩
        ⟨"a", "tone", "advice", none, some "r"⟩ =
      ⟨"doc", 1, none, [], []⟩ ∧
    handleApplySuggestion ⟨"doc", 1, none, [], []⟩ unavailableSuggestion =
      ⟨"doc", 1, none, [], []⟩ :=
  c10_falsy_suggestion_noop ⟨"doc", 1, none, [], []⟩
    ⟨"a", "tone", "advice", none, some "r"⟩ (Or.inl rfl)

/-- Claim C3 counterexample: for the markup "a\nb" (stripped text "a\nb"),
exporting to plain text and re-importing yields markup "a<br>b"; its
stripped text is "ab", which differs from the original stripped text by a
lost newline — a difference that is not an HTML-escaping of a reserved
character. -/
theorem c3_roundtrip_counterexample :
    stripHtml "a\nb" = "a\nb" ∧
    uploadFormat (stripHtml "a\nb") = "a<br>b" ∧
    stripHtml (uploadFormat (stripHtml "a\nb")) = "ab" ∧
    ("ab" : String) ≠ "a\nb" := by
  decide

/-- Claim C3 as amended: for every document markup string, exporting to
plain text and re-importing the file content through handleFileUpload
yields a document whose stripped text equals the original stripped text
with every newline character removed (escaped reserved characters are
restored exactly; newlines become <br> tags on import, which stripping
drops). -/
theorem c3_roundtrip_amended (m : String) :
    stripHtml ((handleFileUpload ⟨m, 0, none, [], []⟩
        (exportAsTxt ⟨m, 0, none, [], []⟩)).text) =
      removeNewlines (stripHtml m) := by
  by_cases h : stripHtml m = ""
  · unfold handleFileUpload exportAsTxt
    rw [if_pos h]
    show stripHtml m = removeNewlines (stripHtml m)
    rw [h]
    rfl
  · unfold handleFileUpload exportAsTxt
    rw [if_neg h]
    exact stripHtmlUploadFormat (stripHtml m)

/-- Claim C4 counterexample: when the external Document value becomes the
empty string, the synchronization effect clears the editor view even
though the view holds the non-empty content "hello" — a non-empty view is
overwritten, contradicting the claim at this input. -/
theorem c4_sync_counterexample :
    ("hello" : String) ≠ "" ∧
    editorSyncEffect "" "hello" = "" ∧
    editorSyncEffect "" "hello" ≠ "hello" := by
  decide

/-- Claim C4 as amended: a non-empty external Document value overwrites
the view only when the view is empty or the <br> placeholder (a view with
other content is left unchanged), while an empty external Document value
always clears the view. -/
theorem c4_sync_amended (text view : String) :
    (text ≠ "" → view ≠ "" → view ≠ "<br>" → editorSyncEffect text view = view) ∧
    (text = "" → editorSyncEffect text view = "") ∧
    (text ≠ "" → (view = "" ∨ view = "<br>") → editorSyncEffect text view = text) := by
  refine ⟨?_, ?_, ?_⟩
  · intro h1 h2 h3
    simp [editorSyncEffect, h1, h2, h3]
  · intro h1
    simp [editorSyncEffect, h1]
  · intro h1 hv
    rcases hv with hv | hv <;> subst hv
    · simp [editorSyncEffect, h1, Ne.symm h1]
    · by_cases ht : text = "<br>"
      · subst ht; decide
      · simp [editorSyncEffect, h1, Ne.symm ht]

/-- Witness for the amended C4 at concrete inputs. -/
theorem c4_sync_amended_witness :
    editorSyncEffect "x" "hello" = "hello" ∧
    editorSyncEffect "" "hello" = "" ∧
    editorSyncEffect "x" "<br>" = "x" :=
  ⟨(c4_sync_amended "x" "hello").1 (by decide) (by decide) (by decide),
   (c4_sync_amended "" "hello").2.1 rfl,
   (c4_sync_amended "x" "<br>").2.2 (by decide) (Or.inr rfl)⟩

/-- Claim C5 counterexample: handleNewDocument (confirmed) resets the chat
history of a state holding one message to the empty sequence — an
operation of the application that removes an existing message, so the
sequence is not append-only. -/
theorem c5_append_only_counterexample :
    (⟨"t", 0, none, [⟨"1", "user", "hi", 5⟩], []⟩ : AppState).chatHistory ≠ [] ∧
    (handleNewDocument ⟨"t", 0, none, [⟨"1", "user", "hi", 5⟩], []⟩ true).chatHistory
      = [] := by
  decide

/-- Claim C5 as amended: every operation of the application leaves the
ChatMessage sequence unchanged or appends new messages at the end — chat
send appends exactly the user turn followed by the model turn — except
the confirmed New Document operation, which clears the sequence; an
unconfirmed New Document leaves it unchanged. -/
theorem c5_append_only_amended (st : AppState) (s : Suggestion) (msg content : String)
    (now1 now2 : Nat) (provider : ChatRequest → ProviderOutcome (Option String)) :
    (handleChatSend st msg now1 now2 provider).chatHistory =
      st.chatHistory ++
        [⟨toString now1, "user", msg, now1⟩,
         ⟨toString (now2 + 1), "model",
           (getChatResponse st.chatHistory msg (stripHtml st.text) provider).1, now2⟩] ∧
    (handleApplySuggestion st s).chatHistory = st.chatHistory ∧
    (handleFileUpload st content).chatHistory = st.chatHistory ∧
    (handleNewDocument st false).chatHistory = st.chatHistory ∧
    (handleNewDocument st true).chatHistory = [] := by
  refine ⟨rfl, ?_, ?_, rfl, rfl⟩
  · unfold handleApplySuggestion
    split
    · rfl
    · split <;> rfl
  · unfold handleFileUpload
    split <;> rfl

/-- Claim C8: from the processing state, completion of the AI call always
moves the popup to the result mode — never back to prompt — and on
provider failure the result is the fixed error message. -/
theorem c8_popup_failure_result (popup : AiPopupState)
    (actionId selectionText customPrompt : String) (rng : Option Unit)
    (provider : String → ProviderOutcome (Option String)) :
    (runAiAction popup actionId selectionText customPrompt rng provider).mode =
      PopupMode.result ∧
    (runAiAction popup actionId selectionText customPrompt rng
        (fun _ => ProviderOutcome.err)).result = "Error processing request." :=
  ⟨rfl, rfl⟩

/-- Claim C9: a quick action invoked with a missing, rangeless, or
(after trimming) empty selection surfaces the validation alert, leaves the
popup closed and unchanged, and sends no request to the provider. -/
theorem c9_empty_selection_validation (popup : AiPopupState) (actionId : String)
    (selection : Option SelectionModel)
    (provider : String → ProviderOutcome (Option String))
    (h : emptySel selection = true) :
    handleQuickAction popup actionId selection provider =
      (popup, ["Please select some text first."], []) := by
  cases selection with
  | none => rfl
  | some sel =>
      simp only [emptySel] at h
      unfold handleQuickAction
      simp [h]

/-- Witness for C9 at a concrete whitespace-only selection. -/
theorem c9_empty_selection_validation_witness :
    handleQuickAction ⟨false, PopupMode.prompt, "", "", "", none⟩ "Summarize"
        (some ⟨1, "   "⟩) (fun _ => ProviderOutcome.err) =
      (⟨false, PopupMode.prompt, "", "", "", none⟩,
       ["Please select some text first."], []) :=
  c9_empty_selection_validation ⟨false, PopupMode.prompt, "", "", "", none⟩
    "Summarize" (some ⟨1, "   "⟩) (fun _ => ProviderOutcome.err) (by decide)
